import Mathlib

/-!
Verification of the `anki_forvo_dl` add-on's scraping module (`src/Forvo.py`).

The module is embedded shallowly:

* Python strings are `String`/`List Char`; the specific `re` patterns the code
  uses are embedded as lists of character-class atoms run by a small
  backtracking matcher with Python's leftmost, greedy-first semantics
  (every pattern in `Forvo.py` is a concatenation of literals and quantified
  single-character classes, with at most one capturing group);
* the BeautifulSoup document is a `Node` tree; `find_all` enumerates tag
  descendants in document (preorder) order;
* fallible Python code (`[0]` indexing, `attrs[...]`, `int(...)`,
  `base64.b64decode`, UTF-8 decoding) returns `Except PyExc _`, where
  `PyExc.noResults` is `NoResultsException` and `PyExc.structural` stands for
  the generic exceptions (IndexError, KeyError, ValueError, binascii.Error,
  UnicodeDecodeError) that the module never catches;
* the host collaborators (HTTP fetch, Anki media store, temp directory) are
  explicit parameters, and their invocations are returned as traces.

Regex-class simplifications, noted where relevant: `\d` and `\w` are modelled
as their ASCII meaning (the scraped ids and tokens are ASCII), and
`base64.b64decode` is modelled on clean base64 input (Python would silently
discard non-alphabet characters before decoding).
-/

/-! ## A tiny regex engine: quantified character-class atoms

Each atom matches between `low` and `high` (none = unbounded) characters
satisfying `cls`; `cap` marks the atoms whose consumed text forms capturing
group 1. Matching is greedy with backtracking, exactly Python's strategy for
these patterns. -/

structure RAtom where
  cls : Char → Bool
  low : Nat
  high : Option Nat
  cap : Bool

/-- Length of the longest prefix of `cs` whose characters all satisfy `p`. -/
def runLen (p : Char → Bool) : List Char → Nat
  | [] => 0
  | c :: cs => if p c then runLen p cs + 1 else 0

/-- Try to let atom `a` consume exactly `n` characters of `cs` (all known to
satisfy `a.cls`) and match the continuation `k` on the rest; on failure
backtrack by decreasing `n`, never below `a.low`. Returns group-1 text. -/
def tryCounts (a : RAtom) (k : List Char → Option String) (cs : List Char) :
    Nat → Option String
  | 0 =>
    if a.low = 0 then
      match k cs with
      | some s => some s
      | none => none
    else none
  | n + 1 =>
    if n + 1 < a.low then none
    else
      match k (cs.drop (n + 1)) with
      | some s => some ((if a.cap then String.mk (cs.take (n + 1)) else "") ++ s)
      | none => tryCounts a k cs n

/-- Match a whole atom list at the start of `cs` (greedy, backtracking);
`some g` is a successful match with group-1 text `g`. -/
def matchAtoms : List RAtom → List Char → Option String
  | [], _ => some ""
  | a :: rest, cs =>
    tryCounts a (fun cs2 => matchAtoms rest cs2) cs
      (min (runLen a.cls cs) (a.high.getD cs.length))

/-- Leftmost match: try `matchAtoms` at every start position, left to right.
This is `re.search` / the first element of `re.findall`. -/
def searchChars (atoms : List RAtom) : List Char → Option String
  | [] => matchAtoms atoms []
  | c :: cs =>
    match matchAtoms atoms (c :: cs) with
    | some s => some s
    | none => searchChars atoms cs

/-- Group-1 text of the leftmost match of the pattern in `s`, if any.
`(findFirst pat s).isSome` is `re.search` success / `len(re.findall(...)) > 0`. -/
def findFirst (atoms : List RAtom) (s : String) : Option String :=
  searchChars atoms s.data

/-- A literal character of a pattern. -/
def lit (c : Char) : RAtom := ⟨fun x => x = c, 1, some 1, false⟩

/-- The literal characters of `s`, as pattern atoms. -/
def litStr (s : String) : List RAtom := s.data.map lit

/-- `\d`, modelled as ASCII digits. -/
def isDigitA (c : Char) : Bool := c.isDigit

/-- `\w`, modelled as ASCII word characters. -/
def isWordA (c : Char) : Bool := c.isAlphanum || c = '_'

/-- `.` without `re.S`: any character but a newline. -/
def isDotNoNl (c : Char) : Bool := c ≠ '\n'

/-- `[^']`: any character but a single quote. -/
def isNotQuote (c : Char) : Bool := c ≠ '\''

/-- `language-container-(\w{2,4})` (Forvo.py lines 99 and 102). -/
def langContPat : List RAtom :=
  litStr "language-container-" ++ [⟨isWordA, 2, some 4, true⟩]

/-- `word_rate_\d+` (Forvo.py line 120). -/
def wordRatePat : List RAtom := litStr "word_rate_" ++ [⟨isDigitA, 1, none, false⟩]

/-- `(-?\d+).*` (Forvo.py line 126). -/
def votePat : List RAtom :=
  [⟨fun x => x = '-', 0, some 1, true⟩, ⟨isDigitA, 1, none, true⟩,
   ⟨isDotNoNl, 0, none, false⟩]

/-- `play_\d+` (Forvo.py lines 128 and 133). -/
def playPat : List RAtom := litStr "play_" ++ [⟨isDigitA, 1, none, false⟩]

/-- `Play\(\d+,'.+','.+',\w+,'([^']+)` (Forvo.py line 128). -/
def fiveArgPat : List RAtom :=
  litStr "Play(" ++ [⟨isDigitA, 1, none, false⟩] ++ litStr ",'" ++
  [⟨isDotNoNl, 1, none, false⟩] ++ litStr "','" ++
  [⟨isDotNoNl, 1, none, false⟩] ++ litStr "'," ++
  [⟨isWordA, 1, none, false⟩] ++ litStr ",'" ++
  [⟨isNotQuote, 1, none, true⟩]

/-- `Play\(\d+,'[^']+','([^']+)` (Forvo.py line 133). -/
def threeArgPat : List RAtom :=
  litStr "Play(" ++ [⟨isDigitA, 1, none, false⟩] ++ litStr ",'" ++
  [⟨isNotQuote, 1, none, false⟩] ++ litStr "','" ++
  [⟨isNotQuote, 1, none, true⟩]

/-- `Pronunciation by(.*)` with `re.S` (Forvo.py line 142): the dot matches
newlines too. -/
def pronByPat : List RAtom :=
  litStr "Pronunciation by" ++ [⟨fun _ => true, 0, none, true⟩]

/-! ## Python string helpers -/

/-- The ASCII whitespace characters `str.strip()` removes (Python also strips
Unicode whitespace, which the scraped pages do not contain). -/
def pyIsSpace (c : Char) : Bool :=
  c = ' ' || c = '\t' || c = '\n' || c = '\r' || c = Char.ofNat 11 || c = Char.ofNat 12

/-- `str.strip()` on a character list. -/
def pyStripL (l : List Char) : List Char :=
  ((l.dropWhile pyIsSpace).reverse.dropWhile pyIsSpace).reverse

/-- `str.strip()`. -/
def pyStrip (s : String) : String := String.mk (pyStripL s.data)

/-- Value of a nonempty all-digit run, accumulator style. -/
def digitsValGo : List Char → Nat → Option Nat
  | [], acc => some acc
  | c :: rest, acc =>
    if c.isDigit then digitsValGo rest (acc * 10 + (c.toNat - 48)) else none

/-- Value of a nonempty string of ASCII digits, `none` otherwise. -/
def digitsVal (l : List Char) : Option Nat :=
  match l with
  | [] => none
  | _ => digitsValGo l 0

/-- Python `int(s)`: strip whitespace, optional sign, digits. (Python 3 also
accepts underscore digit grouping, which never occurs in the scraped pages.) -/
def pyInt (s : String) : Option Int :=
  match pyStripL s.data with
  | [] => none
  | c :: rest =>
    if c = '-' then (digitsVal rest).map (fun n => -(n : Int))
    else if c = '+' then (digitsVal rest).map (fun n => (n : Int))
    else (digitsVal (c :: rest)).map (fun n => (n : Int))

/-! ## base64 and UTF-8 decoding (`str(base64.b64decode(tok), "utf-8")`) -/

/-- Value of a standard-alphabet base64 character. -/
def b64Val (c : Char) : Option Nat :=
  if 'A' ≤ c ∧ c ≤ 'Z' then some (c.toNat - 65)
  else if 'a' ≤ c ∧ c ≤ 'z' then some (c.toNat - 97 + 26)
  else if c.isDigit then some (c.toNat - 48 + 52)
  else if c = '+' then some 62
  else if c = '/' then some 63
  else none

/-- Decode base64 characters four at a time into bytes; `=` padding is only
accepted in the final quartet, and a length not a multiple of four fails,
as in `base64.b64decode` on clean input. -/
def b64decodeBytes : List Char → Option (List Nat)
  | [] => some []
  | c1 :: c2 :: c3 :: c4 :: rest =>
    match b64Val c1, b64Val c2 with
    | some v1, some v2 =>
      if c3 = '=' then
        if c4 = '=' && rest.isEmpty then some [v1 * 4 + v2 / 16] else none
      else
        match b64Val c3 with
        | some v3 =>
          if c4 = '=' then
            if rest.isEmpty then some [v1 * 4 + v2 / 16, (v2 % 16) * 16 + v3 / 4]
            else none
          else
            match b64Val c4 with
            | some v4 =>
              match b64decodeBytes rest with
              | some bs =>
                some ((v1 * 4 + v2 / 16) :: ((v2 % 16) * 16 + v3 / 4) ::
                      ((v3 % 4) * 64 + v4) :: bs)
              | none => none
            | none => none
        | none => none
    | _, _ => none
  | _ => none

/-- Whether a byte is a UTF-8 continuation byte. -/
def isCont (b : Nat) : Bool := 128 ≤ b ∧ b < 192

/-- Strict UTF-8 decoding of a byte list (rejecting truncated, overlong and
surrogate encodings, like Python's `str(bytes, "utf-8")`). -/
def utf8Decode : List Nat → Option (List Char)
  | [] => some []
  | b :: rest =>
    if b < 128 then
      match utf8Decode rest with
      | some cs => some (Char.ofNat b :: cs)
      | none => none
    else if b < 194 then none
    else if b < 224 then
      match rest with
      | b2 :: rest2 =>
        if isCont b2 then
          match utf8Decode rest2 with
          | some cs => some (Char.ofNat ((b - 192) * 64 + (b2 - 128)) :: cs)
          | none => none
        else none
      | _ => none
    else if b < 240 then
      match rest with
      | b2 :: b3 :: rest2 =>
        let cp := (b - 224) * 4096 + (b2 - 128) * 64 + (b3 - 128)
        if isCont b2 && isCont b3 && decide (2048 ≤ cp) &&
            !(decide (55296 ≤ cp) && decide (cp < 57344)) then
          match utf8Decode rest2 with
          | some cs => some (Char.ofNat cp :: cs)
          | none => none
        else none
      | _ => none
    else if b < 245 then
      match rest with
      | b2 :: b3 :: b4 :: rest2 =>
        let cp := (b - 240) * 262144 + (b2 - 128) * 4096 + (b3 - 128) * 64 + (b4 - 128)
        if isCont b2 && isCont b3 && isCont b4 && decide (65536 ≤ cp) &&
            decide (cp ≤ 1114111) then
          match utf8Decode rest2 with
          | some cs => some (Char.ofNat cp :: cs)
          | none => none
        else none
      | _ => none
    else none

/-- `str(base64.b64decode(tok), "utf-8")` (Forvo.py lines 134 and 138):
base64-decode the token and read the bytes as UTF-8; either failure is a
generic (structural) exception. -/
def b64utf8 (tok : String) : Option String :=
  match b64decodeBytes tok.data with
  | none => none
  | some bytes =>
    match utf8Decode bytes with
    | none => none
    | some cs => some (String.mk cs)

/-! ## The document model

BeautifulSoup's parse tree: a node is a text node (NavigableString) or a tag
with a name, attributes and child nodes, in document order. `Node` and
`NodeList` are a mutual pair so that all tree functions are structurally
recursive (and hence compute inside the kernel). -/

mutual
inductive Node where
  | text (s : String)
  | tag (name : String) (attrs : List (String × String)) (children : NodeList)

inductive NodeList where
  | nil
  | cons (n : Node) (l : NodeList)
end

/-- Build a `NodeList` from a `List Node`. -/
def nl : List Node → NodeList
  | [] => NodeList.nil
  | n :: rest => NodeList.cons n (nl rest)

/-- The children of a node (`tag.contents`), as a plain list. -/
def childList : Node → List Node
  | Node.text _ => []
  | Node.tag _ _ ch => go ch
where go : NodeList → List Node
  | NodeList.nil => []
  | NodeList.cons n rest => n :: go rest

/-- Attribute lookup (`tag.attrs.get(key)`); text nodes have no attributes. -/
def getAttr : Node → String → Option String
  | Node.text _, _ => none
  | Node.tag _ attrs _, key => (attrs.find? (fun kv => kv.1 == key)).map (fun kv => kv.2)

/-- The `id` attribute. -/
def idOf (n : Node) : Option String := getAttr n "id"

/-- The tag name; `none` for text nodes. -/
def nameOf : Node → Option String
  | Node.text _ => none
  | Node.tag nm _ _ => some nm

/-- Split characters on whitespace runs, dropping empties (Python `str.split()`),
accumulator style. -/
def splitWsGo : List Char → List Char → List String
  | [], acc => if acc.isEmpty then [] else [String.mk acc.reverse]
  | c :: rest, acc =>
    if pyIsSpace c then
      if acc.isEmpty then splitWsGo rest []
      else String.mk acc.reverse :: splitWsGo rest []
    else splitWsGo rest (c :: acc)

/-- Split a `class` attribute value into class names (BeautifulSoup treats
`class` as a whitespace-separated multi-valued attribute). -/
def splitWsStr (s : String) : List String := splitWsGo s.data []

/-- Whether the node is a tag carrying CSS class `c` (the `class_=` filter). -/
def hasCls (n : Node) (c : String) : Bool :=
  match getAttr n "class" with
  | none => false
  | some v => (splitWsStr v).contains c

/-- All tag descendants of the nodes of `l` (each tag followed by its own
subtree), in document order. -/
def descWithin : NodeList → List Node
  | NodeList.nil => []
  | NodeList.cons (Node.text _) l => descWithin l
  | NodeList.cons (Node.tag nm a ch) l =>
    Node.tag nm a ch :: (descWithin ch ++ descWithin l)

/-- All tag descendants of a node, excluding the node itself, in document
order: the candidates BeautifulSoup's recursive `find_all` filters. -/
def desc : Node → List Node
  | Node.text _ => []
  | Node.tag _ _ ch => descWithin ch

/-- `find_all` with an arbitrary filter: all matching tag descendants. -/
def findAllPred (n : Node) (p : Node → Bool) : List Node := (desc n).filter p

/-- `find_all(class_=c)`. -/
def findAllCls (n : Node) (c : String) : List Node := findAllPred n (fun x => hasCls x c)

/-- `find_all("name")`. -/
def findAllName (n : Node) (nm : String) : List Node :=
  findAllPred n (fun x => nameOf x == some nm)

/-- `find_all(id=re.compile(pat))`: tags whose `id` attribute the pattern
matches (BeautifulSoup applies `pattern.search` to the attribute value). -/
def findAllIdPat (n : Node) (pat : List RAtom) : List Node :=
  findAllPred n (fun x => ((idOf x).bind (fun i => findFirst pat i)).isSome)

/-- `find_all(class_=c, recursive=False)`: only direct children. -/
def findAllClsDirect (n : Node) (c : String) : List Node :=
  (childList n).filter (fun x => hasCls x c)

/-! ## Exceptions, records, and host collaborators -/

/-- The exceptions observable from `Forvo.py`. `noResults` is
`NoResultsException`; `httpError c` is `urllib.error.HTTPError` with status
`c`; `structural` is any generic scraping/parsing exception the module never
catches (IndexError, KeyError, ValueError, binascii.Error, UnicodeDecodeError);
`other t` is any further exception (network failures, timeouts, ...),
distinguished by an arbitrary tag so that "propagates unchanged" is statable. -/
inductive PyExc where
  | noResults
  | httpError (code : Nat)
  | structural
  | other (tag : Nat)
deriving DecidableEq, Repr

/-- The `Pronunciation` dataclass (Forvo.py lines 21-32), minus the host
application handle `mw`, which the record only stores to reach the media API
(modelled as an explicit collaborator below). -/
structure Pronunciation where
  language : String
  user : String
  origin : String
  id : Int
  votes : Int
  download_url : String
  is_ogg : Bool
  word : String
  audio : Option String := none
deriving DecidableEq, Repr

/-- A call issued to the host media collaborator `mw.col.media`. -/
inductive MediaOp where
  | addFile (path : String)
  | trashFiles (handles : List (Option String))
deriving DecidableEq, Repr

/-- The downloader's environment: the HTTP layer (url to body bytes, or an
exception), the host media store's `add_file` (path to returned media handle),
and the add-on's shared temp directory path. -/
structure DlEnv where
  fetch : String → Except PyExc (List Nat)
  addFile : String → String
  tempDir : String

/-! ## Query normalizer (`prepare_query_string`, Forvo.py lines 54-60) -/

/-- One pass of Python `str.replace(pat, "")`: delete the leftmost-first,
non-overlapping occurrences of `pat`. While `skip > 0` the scanner is inside
an occurrence already deleted. -/
def goRemove (pat : List Char) : List Char → Nat → List Char
  | [], _ => []
  | _ :: rest, skip + 1 => goRemove pat rest skip
  | c :: rest, 0 =>
    if pat ≠ [] ∧ pat.isPrefixOf (c :: rest) then goRemove pat rest (pat.length - 1)
    else c :: goRemove pat rest 0

/-- `q.replace(pat, "")`: substring deletion (for the empty pattern Python
returns the string unchanged when the replacement is empty). -/
def removeOcc (pat : List Char) (l : List Char) : List Char := goRemove pat l 0

/-- `prepare_query_string` (Forvo.py lines 54-60): strip the input, then
delete each configured `replaceCharacters` entry in configuration order.
Strings are modelled as character lists. -/
def prepare_query_string (input : List Char) (replaceCharacters : List (List Char)) :
    List Char :=
  replaceCharacters.foldl (fun q pat => removeOcc pat q) (pyStripL input)

/-! ## Page fetcher (`Forvo.load_search_query`, Forvo.py lines 76-94) -/

/-- `load_search_query`: the fetch-and-parse step is abstracted as its outcome
(`.ok doc` = page fetched and parsed, `.error e` = the exception raised).
On success the method returns `self` with `self.html` set (`some doc`).
In the handler, a 404 `HTTPError` becomes `NoResultsException`; a non-`HTTPError`
exception is re-raised; an `HTTPError` with any other status falls out of the
handler, so the method returns `None` with `self.html` never assigned
(`.ok none`). -/
def load_search_query (fetched : Except PyExc Node) : Except PyExc (Option Node) :=
  match fetched with
  | Except.ok doc => Except.ok (some doc)
  | Except.error e =>
    match e with
    | PyExc.httpError code =>
      if code = 404 then Except.error PyExc.noResults else Except.ok none
    | e2 => Except.error e2

/-! ## Pronunciation extractor (`Forvo.get_pronunciations`, Forvo.py 96-158) -/

/-- Python's `lst[0]`: IndexError on an empty list is a structural failure. -/
def exIdx0 {α : Type} : List α → Except PyExc α
  | [] => Except.error PyExc.structural
  | a :: _ => Except.ok a

/-- `contents[0]` used as a string (`re.findall` on it, or storage into a
string field): the first child must exist and be a text node; a tag there
would make `re.findall` raise TypeError (structural). -/
def firstContentText (n : Node) : Except PyExc String :=
  match childList n with
  | [] => Except.error PyExc.structural
  | Node.text s :: _ => Except.ok s
  | Node.tag _ _ _ :: _ => Except.error PyExc.structural

/-- The `.num_votes` element of an item (Forvo.py lines 118-120):
`.more[0] → .main_actions[0] → id word_rate_\d+ [0] → .num_votes[0]`. -/
def numVotesEl (li : Node) : Except PyExc Node :=
  match exIdx0 (findAllCls li "more") with
  | Except.error e => Except.error e
  | Except.ok more0 =>
    match exIdx0 (findAllCls more0 "main_actions") with
    | Except.error e => Except.error e
    | Except.ok ma0 =>
      match exIdx0 (findAllIdPat ma0 wordRatePat) with
      | Except.error e => Except.error e
      | Except.ok wr0 => exIdx0 (findAllCls wr0 "num_votes")

/-- `int(str(re.findall(r"(-?\d+).*", text)[0]))` (Forvo.py line 126). -/
def votesFromSpanText (s : String) : Except PyExc Int :=
  match findFirst votePat s with
  | none => Except.error PyExc.structural
  | some g =>
    match pyInt g with
    | none => Except.error PyExc.structural
    | some v => Except.ok v

/-- Vote count of an item (Forvo.py lines 118-126): 0 when the `.num_votes`
element has no inner `<span>`, else the parsed leading integer of the first
span's first text content. -/
def extractVotes (li : Node) : Except PyExc Int :=
  match numVotesEl li with
  | Except.error e => Except.error e
  | Except.ok nv =>
    match findAllName nv "span" with
    | [] => Except.ok 0
    | sp :: _ =>
      match firstContentText sp with
      | Except.error e => Except.error e
      | Except.ok s => votesFromSpanText s

/-- The `onclick` attribute of the item's `play_\d+` element (Forvo.py
lines 128 and 133). -/
def playOnclick (li : Node) : Except PyExc String :=
  match exIdx0 (findAllIdPat li playPat) with
  | Except.error e => Except.error e
  | Except.ok play0 =>
    match getAttr play0 "onclick" with
    | none => Except.error PyExc.structural
    | some oc => Except.ok oc

/-- The fixed mp3 host path prefix (Forvo.py line 138). -/
def mp3Host : String := "https://audio00.forvo.com/audios/mp3/"

/-- The fixed ogg host path prefix (Forvo.py line 134). -/
def oggHost : String := "https://audio00.forvo.com/ogg/"

/-- Download url and ogg flag from the onclick handler (Forvo.py lines
128-138): try the 5-argument `Play(...)` pattern (mp3 host, `is_ogg=False`);
if it does not match, fall back to the 3-argument pattern (ogg host,
`is_ogg=True`, IndexError if that one is missing too). -/
def extractDl (oc : String) : Except PyExc (String × Bool) :=
  match findFirst fiveArgPat oc with
  | some tok =>
    match b64utf8 tok with
    | none => Except.error PyExc.structural
    | some d => Except.ok (mp3Host ++ d, false)
  | none =>
    match findFirst threeArgPat oc with
    | none => Except.error PyExc.structural
    | some tok =>
      match b64utf8 tok with
      | none => Except.error PyExc.structural
      | some d => Except.ok (oggHost ++ d, true)

/-- Lines 128-138 for a whole item: locate the play element, read its
`onclick`, extract url and flag. -/
def extractDlOfItem (li : Node) : Except PyExc (String × Bool) :=
  match playOnclick li with
  | Except.error e => Except.error e
  | Except.ok oc => extractDl oc

/-- Speaker name (Forvo.py lines 140-144): first text of a direct `.ofLink`
child, else the text after "Pronunciation by" in the item's third child,
stripped. -/
def extractUser (li : Node) : Except PyExc String :=
  match findAllClsDirect li "ofLink" with
  | [] =>
    match childList li with
    | _ :: _ :: c2 :: _ =>
      match c2 with
      | Node.text s =>
        match findFirst pronByPat s with
        | none => Except.error PyExc.structural
        | some g => Except.ok (pyStrip g)
      | Node.tag _ _ _ => Except.error PyExc.structural
    | _ => Except.error PyExc.structural
  | u :: _ => firstContentText u

/-- Origin label (Forvo.py line 148): first content of the item's `.from`
element. -/
def extractOrigin (li : Node) : Except PyExc String :=
  match exIdx0 (findAllCls li "from") with
  | Except.error e => Except.error e
  | Except.ok f0 => firstContentText f0

/-- Numeric entry id (Forvo.py lines 149-150): `data-id` of the `.share`
element under `.more → .main_actions`, as an integer. -/
def extractId (li : Node) : Except PyExc Int :=
  match exIdx0 (findAllCls li "more") with
  | Except.error e => Except.error e
  | Except.ok more0 =>
    match exIdx0 (findAllCls more0 "main_actions") with
    | Except.error e => Except.error e
    | Except.ok ma0 =>
      match exIdx0 (findAllCls ma0 "share") with
      | Except.error e => Except.error e
      | Except.ok sh0 =>
        match getAttr sh0 "data-id" with
        | none => Except.error PyExc.structural
        | some v =>
          match pyInt v with
          | none => Except.error PyExc.structural
          | some i => Except.ok i

/-- One loop body of `get_pronunciations` for an item that has a `.more`
block (Forvo.py lines 118-156): build the `Pronunciation` record. -/
def processItem (language word : String) (li : Node) : Except PyExc Pronunciation :=
  match extractVotes li with
  | Except.error e => Except.error e
  | Except.ok votes =>
    match extractDlOfItem li with
    | Except.error e => Except.error e
    | Except.ok dl =>
      match extractUser li with
      | Except.error e => Except.error e
      | Except.ok user =>
        match extractOrigin li with
        | Except.error e => Except.error e
        | Except.ok origin =>
          match extractId li with
          | Except.error e => Except.error e
          | Except.ok pid =>
            Except.ok
              { language := language, user := user, origin := origin, id := pid,
                votes := votes, download_url := dl.1, is_ogg := dl.2,
                word := word, audio := none }

/-- The item loop (Forvo.py lines 114-156): skip items without a `.more`
block, process the rest in order. -/
def processItems (language word : String) : List Node → Except PyExc (List Pronunciation)
  | [] => Except.ok []
  | li :: rest =>
    if (findAllCls li "more").length = 0 then processItems language word rest
    else
      match processItem language word li with
      | Except.error e => Except.error e
      | Except.ok p =>
        match processItems language word rest with
        | Except.error e => Except.error e
        | Except.ok ps => Except.ok (p :: ps)

/-- The language containers: elements whose id matches
`language-container-\w{2,4}` (Forvo.py line 99). -/
def availableLangEls (doc : Node) : List Node :=
  findAllIdPat doc langContPat

/-- The language code a container's id carries (`re.findall(...)[0]`,
Forvo.py line 102). -/
def langCodeOf (n : Node) : Option String :=
  (idOf n).bind (fun i => findFirst langContPat i)

/-- The codes of all language containers (Forvo.py line 102). -/
def availableLangs (doc : Node) : List String :=
  (availableLangEls doc).filterMap langCodeOf

/-- `[... for el in els][0]` over a list comprehension whose body can raise:
evaluate `f` on every element, failing structurally where it is undefined. -/
def mapExcept {α β : Type} (f : α → Option β) : List α → Except PyExc (List β)
  | [] => Except.ok []
  | a :: l =>
    match f a with
    | none => Except.error PyExc.structural
    | some b =>
      match mapExcept f l with
      | Except.error e => Except.error e
      | Except.ok bs => Except.ok (b :: bs)

/-- `Forvo.get_pronunciations` (Forvo.py lines 96-158): collect the language
containers and their codes, fail with `NoResultsException` if the requested
language is absent, then descend `.pronunciations → .show-all-pronunciations`
in the matching container and process its `<li>` items. -/
def get_pronunciations (doc : Node) (language word : String) :
    Except PyExc (List Pronunciation) :=
  match mapExcept langCodeOf (availableLangEls doc) with
  | Except.error e => Except.error e
  | Except.ok langs =>
    if language ∈ langs then
      match exIdx0 ((availableLangEls doc).filter (fun el => langCodeOf el == some language)) with
      | Except.error e => Except.error e
      | Except.ok cont =>
        match exIdx0 (findAllCls cont "pronunciations") with
        | Except.error e => Except.error e
        | Except.ok pc =>
          match exIdx0 (findAllCls pc "show-all-pronunciations") with
          | Except.error e => Except.error e
          | Except.ok sa => processItems language word (findAllName sa "li")
    else Except.error PyExc.noResults

/-! ## Audio downloader (`Pronunciation.download_pronunciation`,
`Pronunciation.remove_pronunciation`, `Forvo.download_pronunciations`,
Forvo.py lines 34-51 and 160-165) -/

/-- `os.path.join(temp_dir, "pronunciation_" + language + "_" + word + ext)`
(Forvo.py lines 38-39). -/
def dlPath (tempDir : String) (p : Pronunciation) : String :=
  tempDir ++ "/" ++ "pronunciation_" ++ p.language ++ "_" ++ p.word ++
    (if p.is_ogg then ".ogg" else ".mp3")

/-- `download_pronunciation` (Forvo.py lines 34-46): fetch the audio bytes
from `download_url`, write them to the temp file, hand the file to the host's
`add_file` and store the returned handle in `audio`. On success the result is
the updated record, the media calls issued, and the file writes performed; a
fetch exception propagates (before `add_file` is called or `audio` is set —
the truncating `open` that precedes the fetch may already have created an
empty temp file, which no claim observes and the trace omits). -/
def download_pronunciation (env : DlEnv) (p : Pronunciation) :
    Except PyExc (Pronunciation × List MediaOp × List (String × List Nat)) :=
  match env.fetch p.download_url with
  | Except.error e => Except.error e
  | Except.ok bytes =>
    let path := dlPath env.tempDir p
    let handle := env.addFile path
    Except.ok ({ p with audio := some handle },
               [MediaOp.addFile path], [(path, bytes)])

/-- `remove_pronunciation` (Forvo.py lines 48-51): ask the host to trash the
stored handle (whatever `audio` holds, even `None`), then clear `audio`. -/
def remove_pronunciation (p : Pronunciation) : Pronunciation × List MediaOp :=
  ({ p with audio := none }, [MediaOp.trashFiles [p.audio]])

/-- The record a successful download leaves behind. -/
def downloadedOf (env : DlEnv) (p : Pronunciation) : Pronunciation :=
  { p with audio := some (env.addFile (dlPath env.tempDir p)) }

/-- The bytes a successful fetch of `p`'s url returns (empty on failure; only
used under a success hypothesis). -/
def fetchBytes (env : DlEnv) (p : Pronunciation) : List Nat :=
  match env.fetch p.download_url with
  | Except.ok b => b
  | Except.error _ => []

/-- `download_pronunciations` (Forvo.py lines 160-165): download the records
strictly one at a time in list order. The result is the final list (records
are mutated in place in Python, so on an exception the earlier records keep
their new state and the later ones are untouched), the media calls and file
writes issued, and the first exception raised, if any. -/
def download_pronunciations (env : DlEnv) :
    List Pronunciation →
      List Pronunciation × List MediaOp × List (String × List Nat) × Option PyExc
  | [] => ([], [], [], none)
  | p :: rest =>
    match download_pronunciation env p with
    | Except.error e => (p :: rest, [], [], some e)
    | Except.ok (p1, ops, wr) =>
      match download_pronunciations env rest with
      | (rest1, ops1, wr1, exc) => (p1 :: rest1, ops ++ ops1, wr ++ wr1, exc)

/-! ## Temp cleanup (`Forvo.cleanup`, Forvo.py lines 167-172) -/

/-- An entry of the shared temp directory: a name, and whether it is a
regular file `os.remove` can delete (for a subdirectory it raises). -/
structure FsEntry where
  name : String
  isFile : Bool
deriving DecidableEq, Repr

/-- `os.remove(os.path.join(temp_dir, f))`: delete the entry named `f`;
a missing entry (FileNotFoundError) or a directory (IsADirectoryError)
raises, modelled as a structural exception. -/
def osRemove (d : List FsEntry) (f : String) : Except PyExc (List FsEntry) :=
  match d.find? (fun e => e.name == f) with
  | none => Except.error PyExc.structural
  | some e =>
    if e.isFile then Except.ok (d.filter (fun e2 => e2.name ≠ f))
    else Except.error PyExc.structural

/-- The loop of `cleanup`: remove each listed name in turn from the directory
state. -/
def cleanupGo : List String → List FsEntry → Except PyExc (List FsEntry)
  | [], d => Except.ok d
  | f :: fs, d =>
    match osRemove d f with
    | Except.error e => Except.error e
    | Except.ok d2 => cleanupGo fs d2

/-- `Forvo.cleanup` (Forvo.py lines 167-172): `for f in os.listdir(temp_dir):
os.remove(...)` — snapshot the entry names, then remove every one. -/
def cleanup (d : List FsEntry) : Except PyExc (List FsEntry) :=
  cleanupGo (d.map FsEntry.name) d

/-! ## Concrete fixtures, used by the witness instantiations -/

/-- A 5-argument `Play(...)` onclick handler with token for "test.mp3". -/
def sampleOnclick : String :=
  "Play(8399,'OTk2Mzk5LzM5','b',h,'dGVzdC5tcDM=');return false;"

/-- A well-formed pronunciation list item: play element, `.more` block with
vote span "-3 votes" and share id 42, a direct `.ofLink` child "alice" and a
`.from` element. -/
def sampleItem : Node :=
  Node.tag "li" [] (nl [
    Node.tag "span" [("id", "play_1"), ("onclick", sampleOnclick)] (nl []),
    Node.tag "div" [("class", "more")] (nl [
      Node.tag "div" [("class", "main_actions")] (nl [
        Node.tag "div" [("id", "word_rate_1")] (nl [
          Node.tag "span" [("class", "num_votes")] (nl [
            Node.tag "span" [] (nl [Node.text "-3 votes"])])]),
        Node.tag "a" [("class", "share"), ("data-id", "42")] (nl [])])]),
    Node.tag "a" [("class", "ofLink")] (nl [Node.text "alice"]),
    Node.tag "span" [("class", "from")] (nl [Node.text "(Germany)"])])

/-- The record `sampleItem` extracts to (for language "en", word "hello"). -/
def samplePron : Pronunciation :=
  { language := "en", user := "alice", origin := "(Germany)", id := 42,
    votes := -3, download_url := mp3Host ++ "test.mp3", is_ogg := false,
    word := "hello", audio := none }

/-- The `.num_votes` element inside `sampleItem`. -/
def sampleNumVotes : Node :=
  Node.tag "span" [("class", "num_votes")] (nl [
    Node.tag "span" [] (nl [Node.text "-3 votes"])])

/-- The inner vote span of `sampleItem`. -/
def sampleInnerSpan : Node := Node.tag "span" [] (nl [Node.text "-3 votes"])

/-- A placeholder item without a `.more` block. -/
def sampleBad : Node := Node.tag "li" [] (nl [Node.text "Add this word"])

/-- An empty parsed document (no language containers). -/
def emptyDoc : Node := Node.tag "[document]" [] (nl [])

/-- A concrete downloader environment for the witnesses. -/
def envW : DlEnv :=
  { fetch := fun _ => Except.ok [1, 2, 3],
    addFile := fun _ => "forvo_handle.mp3",
    tempDir := "/tmp/forvo" }

/-! ## Claim C2 — page fetcher error handling

The handler (Forvo.py lines 87-94) turns a 404 `HTTPError` into
`NoResultsException` and re-raises non-`HTTPError` exceptions, but an
`HTTPError` with any other status falls through both branches: the exception
is swallowed and the method returns `None` without `self.html` ever being
assigned. The next pipeline stage then fails on the missing attribute, so the
intended (and specified) behaviour is clearly to re-raise. -/

/-- Claim C2: the spec says a non-404 HTTP error propagates unchanged; the
code instead swallows it (`load_search_query` returns normally, with no
parsed document). A 404 does become `NoResults`, and a non-HTTP exception
does propagate. -/
theorem claim_C2 :
    load_search_query (Except.error (PyExc.httpError 500)) = Except.ok none ∧
    load_search_query (Except.error (PyExc.httpError 404)) =
      Except.error PyExc.noResults ∧
    load_search_query (Except.error (PyExc.other 7)) =
      Except.error (PyExc.other 7) :=
  ⟨rfl, rfl, rfl⟩

/-! ## Claim C3 — query normalizer -/

/-- Deleting the single character `a` is filtering it out. -/
theorem removeOcc_singleton (a : Char) (l : List Char) :
    removeOcc [a] l = l.filter (fun y => y != a) := by
  unfold removeOcc
  induction l with
  | nil => rfl
  | cons c rest ih =>
    by_cases h : a = c
    · subst h
      simp only [goRemove, List.isPrefixOf, List.filter]
      rw [if_pos]
      · simpa using ih
      · exact ⟨by simp, by simp [List.isPrefixOf]⟩
    · simp only [goRemove, List.isPrefixOf, List.filter]
      rw [if_neg]
      · simp [ih, bne, Ne.symm h, BEq.beq]
      · simp [List.isPrefixOf, h]

/-- Filtering never re-introduces a character. -/
theorem not_mem_filter_foldl (c : Char) (chars : List Char) (init : List Char)
    (h : c ∉ init) :
    c ∉ chars.foldl (fun q x => q.filter (fun y => y != x)) init := by
  induction chars generalizing init with
  | nil => simpa using h
  | cons x xs ih =>
    simp only [List.foldl_cons]
    exact ih _ (fun hc => h (List.mem_of_mem_filter hc))

/-- After the fold processes every character of `chars`, none of them is left. -/
theorem mem_strip_foldl (c : Char) (chars : List Char) (init : List Char)
    (h : c ∈ chars) :
    c ∉ chars.foldl (fun q x => q.filter (fun y => y != x)) init := by
  induction chars generalizing init with
  | nil => cases h
  | cons x xs ih =>
    simp only [List.foldl_cons]
    rcases List.mem_cons.mp h with rfl | hx
    · apply not_mem_filter_foldl
      intro hc
      have := (List.mem_filter.mp hc).2
      simp at this
    · exact ih _ hx

/-- Claim C3, corrected. As stated the claim is false: the strip happens
before the character deletion, so deletion can expose new leading or trailing
whitespace (see `claim_C3_cex`). What does hold: for a strip set of single
characters, the output contains no occurrence of any configured character. -/
theorem claim_C3 (input : List Char) (chars : List Char) (c : Char)
    (hc : c ∈ chars) :
    c ∉ prepare_query_string input (chars.map (fun x => [x])) := by
  unfold prepare_query_string
  rw [List.foldl_map]
  have hfun : (fun (q : List Char) (x : Char) => removeOcc [x] q) =
      (fun q x => q.filter (fun y => y != x)) := by
    funext q x
    exact removeOcc_singleton x q
  rw [hfun]
  exact mem_strip_foldl c chars _ hc

/-- Witness for `claim_C3` at a concrete input: after deleting "b", no "b"
remains in the normalized form of "ab". -/
theorem claim_C3_wit :
    ('b' : Char) ∉ prepare_query_string ("ab".data) (['b'].map (fun x => [x])) :=
  claim_C3 ("ab".data) ['b'] 'b' (by decide)

/-- Counterexample to claim C3 as stated: normalizing the input "a b" with
strip set `["b"]` yields `"a "` — the deletion exposed trailing whitespace,
so the output is not whitespace-trimmed (`pyStripL` changes it). -/
theorem claim_C3_cex :
    ¬ (pyStripL (prepare_query_string ("a b".data) [['b']]) =
        prepare_query_string ("a b".data) [['b']]) := by
  decide

/-! ## Claim C8 — temp cleanup -/

/-- Removing a name absent from a directory listing changes nothing. -/
theorem filter_name_eq_self (rest : List FsEntry) (f : String)
    (h : f ∉ rest.map FsEntry.name) :
    rest.filter (fun e2 => e2.name ≠ f) = rest := by
  induction rest with
  | nil => rfl
  | cons e es ih =>
    simp only [List.map_cons, List.mem_cons, not_or] at h
    have hne : e.name ≠ f := fun he => h.1 he.symm
    rw [List.filter_cons, if_pos (by simpa using hne), ih h.2]

/-- The cleanup loop empties the directory when the listed names are distinct
and every entry is a removable file. -/
theorem cleanupGo_clears (d : List FsEntry)
    (hnd : (d.map FsEntry.name).Nodup) (hf : ∀ e ∈ d, e.isFile = true) :
    cleanupGo (d.map FsEntry.name) d = Except.ok [] := by
  induction d with
  | nil => rfl
  | cons e es ih =>
    simp only [List.map_cons, List.nodup_cons] at hnd
    have hfe := hf e (List.mem_cons_self e es)
    simp only [List.map_cons, cleanupGo, osRemove]
    rw [List.find?_cons_of_pos _ (by simp)]
    simp only [hfe, if_true]
    rw [List.filter_cons, if_neg (by simp), filter_name_eq_self es e.name hnd.1]
    exact ih hnd.2 (fun x hx => hf x (List.mem_cons_of_mem e hx))

/-- Claim C8: when every entry of the shared temp directory is a removable
file (and names are distinct, as directory entries are), `cleanup` removes
every entry and leaves the directory empty, with no filtering. -/
theorem claim_C8 (d : List FsEntry)
    (hnd : (d.map FsEntry.name).Nodup) (hf : ∀ e ∈ d, e.isFile = true) :
    cleanup d = Except.ok [] :=
  cleanupGo_clears d hnd hf

/-- Witness for `claim_C8`: a directory with two files is fully emptied. -/
theorem claim_C8_wit :
    cleanup [⟨"pronunciation_en_hello.mp3", true⟩, ⟨"pronunciation_de_ja.ogg", true⟩] =
      Except.ok [] :=
  claim_C8 _ (by decide) (by decide)

/-! ## Claims C6, C7, C10 — audio downloader -/

/-- Unfolding of a successful download. -/
theorem download_pronunciation_ok (env : DlEnv) (p : Pronunciation)
    (bytes : List Nat) (hf : env.fetch p.download_url = Except.ok bytes) :
    download_pronunciation env p =
      Except.ok (downloadedOf env p,
                 [MediaOp.addFile (dlPath env.tempDir p)],
                 [(dlPath env.tempDir p, bytes)]) := by
  unfold download_pronunciation
  rw [hf]
  rfl

/-- Claim C6: when the fetch succeeds, downloading and then removing a record
leaves its `audio` field absent, and across the pair exactly one `add_file`
and one `trash_files` call are issued, the trashed handle being exactly the
one `add_file` returned. -/
theorem claim_C6 (env : DlEnv) (p : Pronunciation) (bytes : List Nat)
    (hf : env.fetch p.download_url = Except.ok bytes) :
    download_pronunciation env p =
      Except.ok (downloadedOf env p,
                 [MediaOp.addFile (dlPath env.tempDir p)],
                 [(dlPath env.tempDir p, bytes)]) ∧
    (remove_pronunciation (downloadedOf env p)).1.audio = none ∧
    [MediaOp.addFile (dlPath env.tempDir p)] ++
        (remove_pronunciation (downloadedOf env p)).2 =
      [MediaOp.addFile (dlPath env.tempDir p),
       MediaOp.trashFiles [some (env.addFile (dlPath env.tempDir p))]] :=
  ⟨download_pronunciation_ok env p bytes hf, rfl, rfl⟩

/-- Witness for `claim_C6` at a concrete environment and record. -/
theorem claim_C6_wit :
    download_pronunciation envW samplePron =
      Except.ok (downloadedOf envW samplePron,
                 [MediaOp.addFile (dlPath envW.tempDir samplePron)],
                 [(dlPath envW.tempDir samplePron, [1, 2, 3])]) ∧
    (remove_pronunciation (downloadedOf envW samplePron)).1.audio = none ∧
    [MediaOp.addFile (dlPath envW.tempDir samplePron)] ++
        (remove_pronunciation (downloadedOf envW samplePron)).2 =
      [MediaOp.addFile (dlPath envW.tempDir samplePron),
       MediaOp.trashFiles [some (envW.addFile (dlPath envW.tempDir samplePron))]] :=
  claim_C6 envW samplePron [1, 2, 3] rfl

/-- Claim C10: the download and removal operations mutate only `audio`; every
other field is unchanged, and removal sets `audio` to absent unconditionally,
whatever it held. -/
theorem claim_C10 (env : DlEnv) (p q : Pronunciation)
    (res : Pronunciation × List MediaOp × List (String × List Nat))
    (hd : download_pronunciation env p = Except.ok res) :
    (res.1.language = p.language ∧ res.1.user = p.user ∧
     res.1.origin = p.origin ∧ res.1.id = p.id ∧ res.1.votes = p.votes ∧
     res.1.download_url = p.download_url ∧ res.1.is_ogg = p.is_ogg ∧
     res.1.word = p.word) ∧
    remove_pronunciation q =
      ({ q with audio := none }, [MediaOp.trashFiles [q.audio]]) := by
  refine ⟨?_, rfl⟩
  unfold download_pronunciation at hd
  cases hfe : env.fetch p.download_url with
  | error e => rw [hfe] at hd; cases hd
  | ok bytes =>
    rw [hfe] at hd
    cases hd
    exact ⟨rfl, rfl, rfl, rfl, rfl, rfl, rfl, rfl⟩

/-- Witness for `claim_C10` at a concrete environment and record. -/
theorem claim_C10_wit :
    ((downloadedOf envW samplePron).language = samplePron.language ∧
     (downloadedOf envW samplePron).user = samplePron.user ∧
     (downloadedOf envW samplePron).origin = samplePron.origin ∧
     (downloadedOf envW samplePron).id = samplePron.id ∧
     (downloadedOf envW samplePron).votes = samplePron.votes ∧
     (downloadedOf envW samplePron).download_url = samplePron.download_url ∧
     (downloadedOf envW samplePron).is_ogg = samplePron.is_ogg ∧
     (downloadedOf envW samplePron).word = samplePron.word) ∧
    remove_pronunciation samplePron =
      ({ samplePron with audio := none }, [MediaOp.trashFiles [samplePron.audio]]) :=
  claim_C10 envW samplePron samplePron
    (downloadedOf envW samplePron,
     [MediaOp.addFile (dlPath envW.tempDir samplePron)],
     [(dlPath envW.tempDir samplePron, [1, 2, 3])]) rfl

/-- Claim C7: the bulk download processes records strictly one at a time in
list order; each processed record's bytes are written to the temp file
`pronunciation_<language>_<word>` with extension `.ogg` iff `is_ogg` (the
path is `dlPath`); when a record's fetch raises, the exception propagates,
no later record is processed, and the failing record and the whole suffix
after it are left exactly as they were (so their `audio` stays absent). -/
theorem claim_C7 (env : DlEnv) (l1 : List Pronunciation) (bad : Pronunciation)
    (l2 : List Pronunciation) (e : PyExc)
    (h1 : ∀ p ∈ l1, env.fetch p.download_url = Except.ok (fetchBytes env p))
    (hbad : env.fetch bad.download_url = Except.error e) :
    download_pronunciations env (l1 ++ bad :: l2) =
      (l1.map (downloadedOf env) ++ bad :: l2,
       l1.map (fun p => MediaOp.addFile (dlPath env.tempDir p)),
       l1.map (fun p => (dlPath env.tempDir p, fetchBytes env p)),
       some e) := by
  induction l1 with
  | nil =>
    simp only [List.nil_append, List.map_nil, download_pronunciations]
    unfold download_pronunciation
    rw [hbad]
  | cons p ps ih =>
    have hp := h1 p (List.mem_cons_self p ps)
    have hrest := ih (fun x hx => h1 x (List.mem_cons_of_mem p hx))
    simp only [List.cons_append, List.map_cons, download_pronunciations,
      download_pronunciation_ok env p (fetchBytes env p) hp, List.append_eq,
      hrest]
    rfl

/-- Witness for `claim_C7`: one good record, then a record whose fetch fails;
the good one is downloaded and written, the failure propagates. -/
theorem claim_C7_wit :
    download_pronunciations
        { fetch := fun u => if u == samplePron.download_url
            then Except.ok [9] else Except.error (PyExc.other 3),
          addFile := fun _ => "h.mp3", tempDir := "/tmp/forvo" }
        ([samplePron] ++ { samplePron with download_url := "x" } :: []) =
      ([samplePron].map (downloadedOf
          { fetch := fun u => if u == samplePron.download_url
              then Except.ok [9] else Except.error (PyExc.other 3),
            addFile := fun _ => "h.mp3", tempDir := "/tmp/forvo" }) ++
         { samplePron with download_url := "x" } :: [],
       [samplePron].map (fun p => MediaOp.addFile (dlPath "/tmp/forvo" p)),
       [samplePron].map (fun p => (dlPath "/tmp/forvo" p, fetchBytes
          { fetch := fun u => if u == samplePron.download_url
              then Except.ok [9] else Except.error (PyExc.other 3),
            addFile := fun _ => "h.mp3", tempDir := "/tmp/forvo" } p)),
       some (PyExc.other 3)) :=
  claim_C7 _ [samplePron] _ [] (PyExc.other 3)
    (by
      intro p hp
      rw [List.mem_singleton] at hp
      subst hp
      rfl)
    rfl

/-! ## Claim C9 — items without a `.more` block are skipped -/

/-- Claim C9: an item with no `.more` sub-block contributes nothing and
raises nothing: the item loop gives the same result as if the item were not
in the list at all (so all other items are still processed). -/
theorem claim_C9 (language word : String) (l1 l2 : List Node) (bad : Node)
    (hb : findAllCls bad "more" = []) :
    processItems language word (l1 ++ bad :: l2) =
      processItems language word (l1 ++ l2) := by
  induction l1 with
  | nil =>
    simp [processItems, hb]
  | cons x xs ih =>
    simp only [List.cons_append, processItems, List.append_eq, ih]

/-- Witness for `claim_C9`: a placeholder item between two copies of a good
item is skipped. -/
theorem claim_C9_wit :
    processItems "en" "hello" ([sampleItem] ++ sampleBad :: [sampleItem]) =
      processItems "en" "hello" ([sampleItem] ++ [sampleItem]) :=
  claim_C9 "en" "hello" [sampleItem] [sampleItem] sampleBad rfl

/-! ## Claim C5 — missing language container -/

/-- Evaluating the language-code comprehension cannot fail on the filtered
container list, and yields exactly the code list. -/
theorem mapExcept_ok {α β : Type} (f : α → Option β) (l : List α)
    (h : ∀ a ∈ l, (f a).isSome) :
    mapExcept f l = Except.ok (l.filterMap f) := by
  induction l with
  | nil => rfl
  | cons a as ih =>
    obtain ⟨b, hb⟩ := Option.isSome_iff_exists.mp (h a (List.mem_cons_self a as))
    simp only [mapExcept, hb, List.filterMap_cons,
      ih (fun x hx => h x (List.mem_cons_of_mem a hx))]

/-- Every element of the language-container list carries a code: the filter
that selected it is exactly the success of `langCodeOf`. -/
theorem langCodeOf_isSome_of_mem (doc : Node) (el : Node)
    (hel : el ∈ availableLangEls doc) : (langCodeOf el).isSome := by
  unfold availableLangEls findAllIdPat findAllPred at hel
  have := List.of_mem_filter hel
  simpa [langCodeOf] using this

/-- Claim C5: when the requested language code is not among the codes of the
page's language containers, the extractor fails with `NoResults` and produces
no records. -/
theorem claim_C5 (doc : Node) (language word : String)
    (h : language ∉ availableLangs doc) :
    get_pronunciations doc language word = Except.error PyExc.noResults := by
  unfold availableLangs at h
  simp only [get_pronunciations,
    mapExcept_ok langCodeOf (availableLangEls doc) (langCodeOf_isSome_of_mem doc)]
  rw [if_neg h]

/-- Witness for `claim_C5`: a document with no language containers at all. -/
theorem claim_C5_wit :
    get_pronunciations emptyDoc "en" "hello" = Except.error PyExc.noResults :=
  claim_C5 emptyDoc "en" "hello" (by decide)

/-! ## Claims C1 and C4 — per-item extraction -/

/-- Inversion of a successful item processing: each extraction step succeeded
and its value sits in the corresponding field of the record. -/
theorem processItem_ok_parts {language word : String} {li : Node}
    {p : Pronunciation} (h : processItem language word li = Except.ok p) :
    extractVotes li = Except.ok p.votes ∧
    extractDlOfItem li = Except.ok (p.download_url, p.is_ogg) ∧
    p.language = language ∧ p.word = word := by
  unfold processItem at h
  cases hv : extractVotes li <;> rw [hv] at h
  case error => cases h
  case ok votes =>
  cases hd : extractDlOfItem li <;> rw [hd] at h
  case error => cases h
  case ok dl =>
  cases hu : extractUser li <;> rw [hu] at h
  case error => cases h
  case ok user =>
  cases ho : extractOrigin li <;> rw [ho] at h
  case error => cases h
  case ok origin =>
  cases hi : extractId li <;> rw [hi] at h
  case error => cases h
  case ok pid =>
  cases h
  exact ⟨rfl, rfl, rfl, rfl⟩

/-- Claim C1: for an item the extractor turns into a record, if the play
element's onclick matches the 5-argument `Play(...)` pattern, the record has
`is_ogg = false` and its url is the fixed mp3 host prefix plus the
base64-decoded token; otherwise, if the 3-argument pattern matches, the
record has `is_ogg = true` and its url is the fixed ogg host prefix plus that
pattern's base64-decoded token. -/
theorem claim_C1 (language word : String) (li : Node) (p : Pronunciation)
    (oc : String)
    (hp : processItem language word li = Except.ok p)
    (hoc : playOnclick li = Except.ok oc) :
    (∀ tok, findFirst fiveArgPat oc = some tok →
       p.is_ogg = false ∧
       some p.download_url = (b64utf8 tok).map (String.append mp3Host)) ∧
    (findFirst fiveArgPat oc = none →
       ∀ tok, findFirst threeArgPat oc = some tok →
         p.is_ogg = true ∧
         some p.download_url = (b64utf8 tok).map (String.append oggHost)) := by
  obtain ⟨-, hdl, -, -⟩ := processItem_ok_parts hp
  have hdl2 : extractDl oc = Except.ok (p.download_url, p.is_ogg) := by
    unfold extractDlOfItem at hdl
    rw [hoc] at hdl
    exact hdl
  constructor
  · intro tok htok
    cases hb : b64utf8 tok
    · simp only [extractDl, htok, hb] at hdl2
      exact Except.noConfusion hdl2
    · simp only [extractDl, htok, hb, Except.ok.injEq, Prod.mk.injEq] at hdl2
      obtain ⟨h1, h2⟩ := hdl2
      refine ⟨h2.symm, ?_⟩
      rw [← h1]
      rfl
  · intro hnone tok htok
    cases hb : b64utf8 tok
    · simp only [extractDl, hnone, htok, hb] at hdl2
      exact Except.noConfusion hdl2
    · simp only [extractDl, hnone, htok, hb, Except.ok.injEq, Prod.mk.injEq] at hdl2
      obtain ⟨h1, h2⟩ := hdl2
      refine ⟨h2.symm, ?_⟩
      rw [← h1]
      rfl

/-- Witness for `claim_C1` at the 5-argument sample item: the record is not
ogg and its url is the mp3 host prefix plus the decoded token. -/
theorem claim_C1_wit :
    samplePron.is_ogg = false ∧
    some samplePron.download_url =
      (b64utf8 "dGVzdC5tcDM=").map (String.append mp3Host) :=
  (claim_C1 "en" "hello" sampleItem samplePron sampleOnclick rfl rfl).1
    "dGVzdC5tcDM=" rfl

/-- Claim C4: for an item the extractor turns into a record, if its
`.num_votes` element contains no inner `<span>` the record's `votes` is 0;
otherwise `votes` is the integer `int(re.findall(r"(-?\d+).*", text)[0])`
parses from the first span's text — the leading signed integer of that text,
negative values included: `"-3 votes"` parses to `-3`. -/
theorem claim_C4 (language word : String) (li : Node) (p : Pronunciation)
    (nv : Node)
    (hp : processItem language word li = Except.ok p)
    (hnv : numVotesEl li = Except.ok nv) :
    ((findAllName nv "span" = [] → p.votes = 0) ∧
     (∀ sp rest s, findAllName nv "span" = sp :: rest →
        firstContentText sp = Except.ok s →
        votesFromSpanText s = Except.ok p.votes)) ∧
    votesFromSpanText "-3 votes" = Except.ok (-3) := by
  obtain ⟨hv, -, -, -⟩ := processItem_ok_parts hp
  have hv2 : (match findAllName nv "span" with
      | [] => Except.ok 0
      | sp :: _ =>
        match firstContentText sp with
        | Except.error e => Except.error e
        | Except.ok s => votesFromSpanText s) = Except.ok p.votes := by
    unfold extractVotes at hv
    rw [hnv] at hv
    exact hv
  refine ⟨⟨?_, ?_⟩, rfl⟩
  · intro hsp
    rw [hsp] at hv2
    simp only [Except.ok.injEq] at hv2
    exact hv2.symm
  · intro sp rest s hsp hs
    rw [hsp] at hv2
    simp only [hs] at hv2
    exact hv2

/-- Witness for `claim_C4` at the sample item: the inner span's text
"-3 votes" parses to the record's vote count, -3. -/
theorem claim_C4_wit :
    votesFromSpanText "-3 votes" = Except.ok samplePron.votes :=
  (claim_C4 "en" "hello" sampleItem samplePron sampleNumVotes rfl rfl).1.2
    sampleInnerSpan [] "-3 votes" rfl rfl
